import Mathlib

/-!
Verification of the two-variant result container in `src/result.cpp`
(`Result<ok_t, err_t>`, with the `Success`/`Failure` wrappers and the
`Ok`/`Err` factories).

The container stores a `bool m_success` next to raw aligned storage that
holds exactly one live payload whose type matches the discriminant
(invariant B of the spec); every constructor establishes this invariant and
no operation mutates it, so the pair is modelled as a sum-shaped inductive
whose constructor is the discriminant and whose argument is the live
payload.  Member functions that can terminate the process are modelled as
returning a `CallResult`, whose `fatal` case records the diagnostic string
handed to `ErrorTerminate` (the C++ writes it to `std::cerr` followed by
`std::endl`, then calls `std::terminate`).  Compile-time facts
(`static_assert`, `enable_if`, and whether the conditional expression in
`Expect` typechecks) are modelled over a small universe `CppType` of the
C++ types involved.
-/

namespace CppResult

/-- Model of the value-less success sentinel: `typedef None__* None`.  The
only value the library ever produces for it is the null pointer, so it is
modelled as a one-value type. -/
inductive NoneT
  | nullptr
deriving DecidableEq

/-- `struct Success<ok_t> { ok_t value; }`: transient wrapper tagging a
payload as the success case. -/
structure Success (ok_t : Type) where
  value : ok_t

/-- `struct Failure<err_t> { err_t value; }`: transient wrapper tagging a
payload as the failure case. -/
structure Failure (err_t : Type) where
  value : err_t

/-- `Ok(value)`: builds a success wrapper carrying a decayed copy/move of
the value. -/
def Ok {ok_t : Type} (value : ok_t) : Success ok_t :=
  ⟨value⟩

/-- `Ok()`: builds a success wrapper carrying the null sentinel,
representing success without a value. -/
def OkNone : Success NoneT :=
  ⟨NoneT.nullptr⟩

/-- `Err(value)`: builds a failure wrapper carrying a decayed copy/move of
the value. -/
def Err {err_t : Type} (value : err_t) : Failure err_t :=
  ⟨value⟩

/-- The container `Result<ok_t, err_t>`: `m_success` plus storage holding
exactly one live payload matching the discriminant.  `success` is the state
with `m_success = true` and an `ok_t` object constructed in storage;
`failure` is the state with `m_success = false` and an `err_t` object. -/
inductive Result (ok_t err_t : Type)
  | success (ok : ok_t)
  | failure (err : err_t)

variable {ok_t err_t : Type}

/-- The `bool m_success` data member, read off the active variant. -/
def Result.m_success : Result ok_t err_t → Bool
  | Result.success _ => true
  | Result.failure _ => false

/-- Outcome of calling a member function that may terminate the process:
either a normal return of a value, or `fatal msg`, meaning the diagnostic
`msg` was written to the error stream and the process was terminated. -/
inductive CallResult (α : Type)
  | ret (value : α)
  | fatal (msg : String)
deriving DecidableEq

/-- `void ErrorTerminate(const char* str) const`: writes `str` to
`std::cerr` (followed by a line terminator via `std::endl`) and then calls
`std::terminate()`; it never returns. -/
def Result.ErrorTerminate {α : Type} (str : String) : CallResult α :=
  CallResult.fatal str

/-- `Result(const Success<ok_t>& ok)`: sets `m_success` to true and
placement-constructs the ok payload in storage from `ok.value` (the
`std::move` applied to the const wrapper degenerates to a copy, see the
instrumented constructor below). -/
def Result.fromSuccess (ok : Success ok_t) : Result ok_t err_t :=
  Result.success ok.value

/-- `Result(const Failure<err_t>& err)`: sets `m_success` to false and
placement-constructs the error payload in storage from `err.value`. -/
def Result.fromFailure (err : Failure err_t) : Result ok_t err_t :=
  Result.failure err.value

/-- `Result(const Result& result)`: copies `m_success` and
placement-constructs a fresh payload of the active type from the source
payload; `std::forward<const ok_t>` yields a const rvalue, which binds to
the payload type's copy constructor, so the source is only read.  Returns
the new container together with the source after the call (const source:
unchanged). -/
def Result.copyCtor (result : Result ok_t err_t) :
    Result ok_t err_t × Result ok_t err_t :=
  match result with
  | Result.success a => (Result.success a, Result.success a)
  | Result.failure b => (Result.failure b, Result.failure b)

/-- A destructor event: which payload type's destructor ran. -/
inductive DtorEvent
  | dtorOk
  | dtorErr
deriving DecidableEq

/-- `~Result()`: runs the destructor of exactly the active payload. -/
def Result.dtorTrace (result : Result ok_t err_t) : List DtorEvent :=
  if result.m_success then [DtorEvent.dtorOk] else [DtorEvent.dtorErr]

/-- `Result(Result&& result)`: copies `m_success`, move-constructs the new
payload from the source payload, and then explicitly calls
`result.~Result()` on the source.  Returns the constructed container (the
discriminant and payload are transferred) together with the destructor
events run on the source payload during construction. -/
def Result.moveCtorInstr (result : Result ok_t err_t) :
    Result ok_t err_t × List DtorEvent :=
  (result, result.dtorTrace)

/-- Destructor events observed by the payload of a moved-from source over
its whole lifetime: the explicit `result.~Result()` inside the move
constructor, followed by the source object's own scope-end destruction,
which C++ still performs on a moved-from automatic object. -/
def Result.movedFromSourceDtorEvents (result : Result ok_t err_t) :
    List DtorEvent :=
  (result.moveCtorInstr).2 ++ result.dtorTrace

/-- `TryGet(const T& defval)`: if `m_success`, returns the ok payload,
otherwise returns the default.  The member is guarded by
`enable_if_t<!is_same_v<T, None>, T>`, modelled by `tryGetEnabled`. -/
def Result.TryGet (result : Result ok_t err_t) (defval : ok_t) : ok_t :=
  match result with
  | Result.success a => a
  | Result.failure _ => defval

/-- `GetOk()`: if not `m_success`, terminates via `ErrorTerminate` with the
fixed diagnostic, otherwise returns the ok payload.  Guarded by the same
`enable_if` as `TryGet`. -/
def Result.GetOk : Result ok_t err_t → CallResult ok_t
  | Result.success a => CallResult.ret a
  | Result.failure _ =>
      Result.ErrorTerminate "Attempting to Result::GetOk an error Result."

/-- `GetErr()`: if `m_success`, terminates via `ErrorTerminate` with the
fixed diagnostic, otherwise returns the error payload. -/
def Result.GetErr : Result ok_t err_t → CallResult err_t
  | Result.success _ =>
      Result.ErrorTerminate "Attempting to Result::GetErr an ok Result."
  | Result.failure b => CallResult.ret b

/-- `Expect(const char* msg)`: if not `m_success`, terminates via
`ErrorTerminate(msg)`; otherwise evaluates
`is_same_v<ok_t, None> ? nullptr : Ok()`.  For the `None` instantiation the
active payload is the null sentinel itself, so whenever the expression
typechecks (see `expectReturnCompiles`) both arms yield the active
payload. -/
def Result.Expect (result : Result ok_t err_t) (msg : String) :
    CallResult ok_t :=
  match result with
  | Result.success a => CallResult.ret a
  | Result.failure _ => Result.ErrorTerminate msg

/-- `operator bool()`: returns `m_success`.  The body only reads the
discriminant; the pair returns the value together with the object after the
call. -/
def Result.operatorBool (result : Result ok_t err_t) :
    Bool × Result ok_t err_t :=
  (result.m_success, result)

/-- A storage slot for a payload object, with a flag recording whether the
object held there has been moved out of. -/
structure Slot (α : Type) where
  value : α
  movedFrom : Bool

/-- Copy-constructing from a slot reads the value and leaves the slot
unchanged. -/
def Slot.copyOut {α : Type} (s : Slot α) : α × Slot α :=
  (s.value, s)

/-- Move-constructing from a slot takes the value and marks the slot as
moved-from. -/
def Slot.moveOut {α : Type} (s : Slot α) : α × Slot α :=
  (s.value, ⟨s.value, true⟩)

/-- Instrumented `Result(const Success<ok_t>& ok)`: the parameter is a
const lvalue reference, so `std::move(ok.value)` has type `const ok_t&&`,
which cannot bind to a non-const rvalue reference; for a copyable payload
type overload resolution therefore selects the copy constructor, and the
wrapper slot is copied out, not moved out.  Returns the constructed
container and the wrapper slot after the call. -/
def Result.ctorFromSuccessInstr (ok : Slot ok_t) :
    Result ok_t err_t × Slot ok_t :=
  (Result.success (Slot.copyOut ok).1, (Slot.copyOut ok).2)

/-- Instrumented `Result(const Failure<err_t>& err)`: same situation as the
success case, `std::move(err.value)` on the const wrapper degenerates to a
copy. -/
def Result.ctorFromFailureInstr (err : Slot err_t) :
    Result ok_t err_t × Slot err_t :=
  (Result.failure (Slot.copyOut err).1, (Slot.copyOut err).2)

/-- Universe of the C++ types mentioned by the compile-time checks of the
class: `void`, `struct None__`, `int`, and pointer types (the sentinel
`None` is `None__*`). -/
inductive CppType
  | tVoid
  | tNoneStruct
  | tInt
  | tPtr (pointee : CppType)
deriving DecidableEq

/-- `typedef None__* None`. -/
def noneType : CppType :=
  CppType.tPtr CppType.tNoneStruct

/-- `std::is_same_v<t, void>`. -/
def CppType.isVoid : CppType → Bool
  | CppType.tVoid => true
  | _ => false

/-- `std::is_same_v<t, None>`, i.e. identity with `None__*`. -/
def CppType.isNoneType : CppType → Bool
  | CppType.tPtr CppType.tNoneStruct => true
  | _ => false

/-- The check in the class body,
`static_assert(!std::is_same_v<err_t, void>, ...)`: an instantiation
`Result<ok_t, err_t>` is accepted exactly when this holds of `err_t`. -/
def resultStaticAssertHolds (err_t : CppType) : Bool :=
  !(CppType.isVoid err_t)

/-- The guard `enable_if_t<!is_same_v<T, None>, T>` on `TryGet` and
`GetOk`: the member exists in the interface exactly when this holds of the
success payload type. -/
def tryGetEnabled (t : CppType) : Bool :=
  !(CppType.isNoneType t)

/-- Whether the return expression of `Expect`, the conditional
`is_same_v<ok_t, None> ? nullptr : Ok()`, typechecks when the member is
instantiated: `std::nullptr_t` and the payload type must have a composite
type, which among the types of this universe holds exactly for pointer
types.  A plain conditional requires both arms to typecheck even though the
condition is a compile-time constant. -/
def expectReturnCompiles : CppType → Bool
  | CppType.tPtr _ => true
  | _ => false

/-- C1: for a container with a non-sentinel success payload type, built
from `Ok v`, `GetOk` returns a value equal to `v`; on any container whose
failure variant is active, `GetOk` writes the fixed diagnostic to the error
stream and terminates the process instead of returning. -/
theorem c1_getOk_contract (ok_t err_t : Type) (v : ok_t) (e : err_t) :
    (Result.fromSuccess (Ok v) : Result ok_t err_t).GetOk
      = CallResult.ret v ∧
    (Result.fromFailure (Err e) : Result ok_t err_t).GetOk
      = CallResult.fatal "Attempting to Result::GetOk an error Result." :=
  ⟨rfl, rfl⟩

/-- C2: on any container built from `Err e` (failure variant active),
`GetErr` returns a value equal to `e`; on any container whose success
variant is active, `GetErr` writes its own fixed diagnostic to the error
stream and terminates the process instead of returning. -/
theorem c2_getErr_contract (ok_t err_t : Type) (v : ok_t) (e : err_t) :
    (Result.fromFailure (Err e) : Result ok_t err_t).GetErr
      = CallResult.ret e ∧
    (Result.fromSuccess (Ok v) : Result ok_t err_t).GetErr
      = CallResult.fatal "Attempting to Result::GetErr an ok Result." :=
  ⟨rfl, rfl⟩

/-- C3: with a non-sentinel success payload type, `TryGet d` returns the
success payload when the success variant is active and returns `d` when the
failure variant is active; and the `enable_if` guard excludes `TryGet` from
the interface when the success payload type is the sentinel `None`. -/
theorem c3_tryGet_contract (ok_t err_t : Type) (v d : ok_t) (e : err_t) :
    (Result.fromSuccess (Ok v) : Result ok_t err_t).TryGet d = v ∧
    (Result.fromFailure (Err e) : Result ok_t err_t).TryGet d = d ∧
    tryGetEnabled noneType = false :=
  ⟨rfl, rfl, rfl⟩

/-- C4: the claim fails on the code: the return expression of `Expect` does
not typecheck for a non-pointer success payload type such as `int`, so for
`Result<int, int>` the member cannot be called at all.  Where the member
does compile (sentinel or pointer payload), `Expect` returns the active
success payload and, on a failure-holding container, terminates after
writing exactly the caller-supplied message. -/
theorem c4_expect_contract_gap :
    expectReturnCompiles CppType.tInt = false ∧
    expectReturnCompiles noneType = true ∧
    (Result.fromSuccess OkNone : Result NoneT Int).Expect "x"
      = CallResult.ret NoneT.nullptr ∧
    (∀ e : Int, (Result.fromFailure (Err e) : Result NoneT Int).Expect "x"
      = CallResult.fatal "x") :=
  ⟨rfl, rfl, rfl, fun _ => rfl⟩

/-- C5: the claim fails on the code: the move constructor explicitly calls
the destructor of the source, so the payload of a moved-from source is
destroyed once inside the move construction and once more at the source's
own scope-end destruction, two destructor runs on one payload.  The
transfer half of the claim does hold: the constructed container carries the
source discriminant and payload. -/
theorem c5_move_double_destruction :
    ((Result.fromSuccess (Ok (3 : Int)) : Result Int Int).moveCtorInstr).1
      = Result.success 3 ∧
    (Result.fromSuccess (Ok (3 : Int)) :
        Result Int Int).movedFromSourceDtorEvents
      = [DtorEvent.dtorOk, DtorEvent.dtorOk] ∧
    ¬ ((Result.fromSuccess (Ok (3 : Int)) :
        Result Int Int).movedFromSourceDtorEvents.length ≤ 1) :=
  ⟨rfl, rfl, by decide⟩

/-- C6: the claim fails on the code: the assert in the class compares the
failure payload type against `void`, not against the sentinel `None`
(which is `None__*`), so an instantiation with `None` as the failure type
passes the assert and is accepted, contrary to the claim and to the
comment and message attached to the assert itself; only `void` is
rejected. -/
theorem c6_staticAssert_checks_void :
    resultStaticAssertHolds noneType = true ∧
    resultStaticAssertHolds CppType.tVoid = false :=
  ⟨rfl, rfl⟩

/-- C7: the scenario fails on the code: for `Result<int, int>` built via
`Ok(3)` the boolean conversion is indeed true, but the `Expect` member does
not compile for success payload type `int` (its return expression mixes
`nullptr` with an `int` payload), so `Expect` cannot return 3. -/
theorem c7_scenario_expect_int :
    (Result.fromSuccess (Ok (3 : Int)) : Result Int Int).operatorBool.1
      = true ∧
    expectReturnCompiles CppType.tInt = false :=
  ⟨rfl, rfl⟩

/-- C8: the boolean conversion returns true exactly when the success
variant is active (true on any success-holding container, false on any
failure-holding one), and the call leaves the container, discriminant and
payload, unchanged. -/
theorem c8_operatorBool_contract (ok_t err_t : Type) (a : ok_t) (b : err_t)
    (r : Result ok_t err_t) :
    (Result.success a : Result ok_t err_t).operatorBool.1 = true ∧
    (Result.failure b : Result ok_t err_t).operatorBool.1 = false ∧
    r.operatorBool.2 = r :=
  ⟨rfl, rfl, rfl⟩

/-- C9: copy construction preserves the discriminant and produces a
container whose fresh in-place payload equals the source payload, while the
source is left unchanged.  Independence holds because the copy is a fresh
payload object constructed in the new container's own storage. -/
theorem c9_copy_contract (ok_t err_t : Type) (r : Result ok_t err_t) :
    (r.copyCtor).1.m_success = r.m_success ∧
    (r.copyCtor).1 = r ∧
    (r.copyCtor).2 = r := by
  cases r with
  | success a => exact ⟨rfl, rfl, rfl⟩
  | failure b => exact ⟨rfl, rfl, rfl⟩

/-- C10: constructing a container from a Success or Failure wrapper copies
the carried value out of the wrapper rather than moving it (the wrapper is
taken by const reference, so the `std::move` degenerates to a copy): the
wrapper slot is unchanged and not marked moved-from, and the container
holds a payload equal to the carried value. -/
theorem c10_wrapper_preserved (ok_t err_t : Type) (w : Slot ok_t)
    (wf : Slot err_t) :
    (@Result.ctorFromSuccessInstr ok_t err_t w).2 = w ∧
    (@Result.ctorFromSuccessInstr ok_t err_t w).1
      = Result.success w.value ∧
    (@Result.ctorFromFailureInstr ok_t err_t wf).2 = wf ∧
    (@Result.ctorFromFailureInstr ok_t err_t wf).1
      = Result.failure wf.value :=
  ⟨rfl, rfl, rfl, rfl⟩

end CppResult
